import Mathlib

/-!
# Radium render-engine core: shallow embedding

A shallow embedding of the command-queue / render-pass replay engine of the
radium repository, together with proofs of the specification claims.

Sources embedded:
* `src/eng/command.rs` — `GpuCommand`, `EncoderCommand`, `CommandQueue`,
  `RenderPassOp`, `RenderPass` and `RenderPass::render`.  The stateful wgpu
  calls made by `render` are modelled as an explicit trace of `DeviceOp`
  values, emitted in exactly the order the source performs the calls.
  `let frame = self.surface.get_current_texture()?` is modelled by passing the
  outcome of the acquisition as an explicit `Except` argument.
  `GpuCommand::ExecuteBundles() => todo!()` is a Rust panic and is modelled by
  the `panicked` result.
* `src/gfx/window.rs` — `RenderWindow` (the fields the claims touch) and
  `RenderWindow::resize` / `create_draw_context`.
* `src/eng/render.rs` (`mod mesh`) — `draw_mesh_instanced` /
  `draw_model_instanced`, whose bodies are sequences of recording calls on a
  render pass; they are embedded as the list of commands they record.
* `DrawCtx` (pass-list variant): the `gfx/draw.rs` present in the tree is a
  stale flat-queue variant that does not match its callers (`eng/app.rs` uses
  `begin_render_pass`/`submit`; `RenderPass::from_draw_ctx` reads
  `ctx.device`/`ctx.depth_texture`).  The pass-managing `DrawCtx` is therefore
  modelled from the spec, as marked on each definition.

Floating-point values (`wgpu::Color` is four `f64`, viewport params are `f32`)
are only ever stored and copied by this engine, never computed with, so they
are carried by `Rat`, which is exact under copying.
-/

namespace Radium

/-- Carrier for `f64` values: only stored/copied by the engine, never computed with. -/
abbrev F64 := Rat

/-- Carrier for `f32` values: only stored/copied by the engine, never computed with. -/
abbrev F32 := Rat

/-- `wgpu::DynamicOffset` (`u32`). -/
abbrev DynamicOffset := Nat

/-- `wgpu::BufferAddress` (`u64`). -/
abbrev BufferAddress := Nat

/-- `wgpu::Color`: four `f64` channels. -/
structure Color where
  r : F64
  g : F64
  b : F64
  a : F64
deriving DecidableEq, Repr

/-- `wgpu::Color::BLACK`. -/
def Color.BLACK : Color := ⟨0, 0, 0, 1⟩

/-- `wgpu::Color::WHITE`. -/
def Color.WHITE : Color := ⟨1, 1, 1, 1⟩

/-- Opaque handle to a `wgpu::RenderPipeline` (reference-counted in the source;
identity is all the engine ever uses). -/
structure RenderPipeline where
  id : Nat
deriving DecidableEq, Repr

/-- Opaque handle to a `wgpu::BindGroup`. -/
structure BindGroup where
  id : Nat
deriving DecidableEq, Repr

/-- Opaque handle to a `wgpu::Buffer`. -/
structure Buffer where
  id : Nat
deriving DecidableEq, Repr

/-- A `wgpu::TextureView`.  For depth textures the view is created from the
surface configuration's dimensions, which is what distinguishes the texture
built before a resize from the one built after it. -/
structure TextureView where
  width : Nat
  height : Nat
deriving DecidableEq, Repr

/-- `wgpu_util::texture::Texture` as used by this core: the `view` field is the
only part `RenderPass::render` and `resize` touch. -/
structure Texture where
  view : TextureView
deriving DecidableEq, Repr

/-- `wgpu::SurfaceConfiguration` (the fields this core reads and writes). -/
structure SurfaceConfiguration where
  width : Nat
  height : Nat
deriving DecidableEq, Repr

/-- Modelled from the spec: the module `gfx/wgpu_util/texture.rs` is not under
`src/`; per its uses (`Texture::depth_texture(&device, &config, label)` in
`window.rs`) it creates a fresh depth texture sized to the current surface
configuration, exposing a `view` of those dimensions. -/
def Texture.depth_texture (config : SurfaceConfiguration) : Texture :=
  { view := { width := config.width, height := config.height } }

/-- `wgpu::SurfaceTexture` as acquired from `get_current_texture`; `view` is
the result of `frame.texture.create_view(&default())`. -/
structure SurfaceTexture where
  view : TextureView
deriving DecidableEq, Repr

/-- `wgpu::SurfaceError`. -/
inductive SurfaceError
  | Timeout
  | Outdated
  | Lost
  | OutOfMemory
deriving DecidableEq, Repr

/-- `wgpu::IndexFormat`. -/
inductive IndexFormat
  | Uint16
  | Uint32
deriving DecidableEq, Repr

/-- `std::ops::Range<u32>`; `stop` is Rust's `end` (a Lean keyword). -/
structure URange where
  start : Nat
  stop : Nat
deriving DecidableEq, Repr

/-- `GpuCommand` from `src/eng/command.rs`: one recorded draw/state operation. -/
inductive GpuCommand
  | SetPipeline (pipeline : RenderPipeline)
  | SetBindGroup (index : Nat) (bind_group : BindGroup) (offsets : Option (List DynamicOffset))
  | SetBlendConstant (color : Color)
  | SetIndexBuffer (buffer : Buffer) (format : IndexFormat)
  | SetVertexBuffer (slot : Nat) (buffer : Buffer)
  | SetScissorRect (x y width height : Nat)
  | SetViewPort (x y w h min_depth max_depth : F32)
  | SetStencilReference (reference : Nat)
  | Draw (vertices : URange) (instances : URange)
  | InsertDebugMarker (label : String)
  | PushDebugGroup (label : String)
  | PopDebugGroup
  | DrawIndexed (indices : URange) (base_vertex : Int) (instances : URange)
  | DrawIndirect (indirect_buffer : Buffer) (indirect_offset : BufferAddress)
  | DrawIndexedIndirect (indirect_buffer : Buffer) (indirect_offset : BufferAddress)
  | ExecuteBundles
deriving DecidableEq, Repr

/-- `EncoderCommand` from `src/eng/command.rs`: a transfer command. -/
inductive EncoderCommand
  | CopyBufferToBuffer (src : Buffer) (src_offset : BufferAddress)
      (dst : Buffer) (dst_offset : BufferAddress) (copy_size : BufferAddress)
deriving DecidableEq, Repr

/-- `CommandQueue` from `src/eng/command.rs`: the two channels. -/
structure CommandQueue where
  draw_commands : List GpuCommand
  encoder_commands : List EncoderCommand
deriving DecidableEq, Repr

/-- `CommandQueue::new()`. -/
def CommandQueue.new : CommandQueue :=
  { draw_commands := [], encoder_commands := [] }

/-- `CommandQueue::clear()`: clears both channels. -/
def CommandQueue.clear (_q : CommandQueue) : CommandQueue :=
  { draw_commands := [], encoder_commands := [] }

/-- `RenderPassOp` from `src/eng/command.rs`. -/
inductive RenderPassOp
  | Clear (color : Color)
  | LoadFromMemory
deriving DecidableEq, Repr

/-- `RenderPassOp::CLEAR_BLACK`. -/
def RenderPassOp.CLEAR_BLACK : RenderPassOp := .Clear Color.BLACK

/-- `RenderPassOp::CLEAR_WHITE`. -/
def RenderPassOp.CLEAR_WHITE : RenderPassOp := .Clear Color.WHITE

/-- Opaque handle to `gfx/window.rs`'s `DeviceSurface` (surface + device +
queue bundle, held by `Rc`). -/
structure DeviceSurface where
  id : Nat
deriving DecidableEq, Repr

/-- `RenderPass` from `src/eng/command.rs`. -/
structure RenderPass where
  command_queue : CommandQueue
  surface : DeviceSurface
  depth_texture : Texture
  op : RenderPassOp
deriving DecidableEq, Repr

/-- `RenderPass::new`: pure value construction, cloning the two handles. -/
def RenderPass.new (surface : DeviceSurface) (depth_texture : Texture)
    (op : RenderPassOp) : RenderPass :=
  { command_queue := CommandQueue.new
    surface := surface
    op := op
    depth_texture := depth_texture }

/-- `wgpu::LoadOp<V>`. -/
inductive LoadOp (α : Type)
  | Clear (value : α)
  | Load
deriving DecidableEq, Repr

/-- `wgpu::Operations<V>`. -/
structure Operations (α : Type) where
  load : LoadOp α
  store : Bool
deriving DecidableEq, Repr

/-- `wgpu::RenderPassColorAttachment`. -/
structure RenderPassColorAttachment where
  view : TextureView
  resolve_target : Option TextureView
  ops : Operations Color
deriving DecidableEq, Repr

/-- `wgpu::RenderPassDepthStencilAttachment` (stencil ops carried as `u32`
clear values; `render` always passes `None`). -/
structure RenderPassDepthStencilAttachment where
  view : TextureView
  depth_ops : Option (Operations F32)
  stencil_ops : Option (Operations Nat)
deriving DecidableEq, Repr

/-- `wgpu::RenderPassDescriptor` as constructed by `RenderPass::render`. -/
structure RenderPassDescriptor where
  label : Option String
  color_attachments : List (Option RenderPassColorAttachment)
  depth_stencil_attachment : Option RenderPassDepthStencilAttachment
deriving DecidableEq, Repr

/-- One call made against the device during replay.  `RenderPass::render` is
embedded as the list of these it performs, in order. -/
inductive DeviceOp
  | copyBufferToBuffer (src : Buffer) (src_offset : BufferAddress)
      (dst : Buffer) (dst_offset : BufferAddress) (copy_size : BufferAddress)
  | beginRenderPass (desc : RenderPassDescriptor)
  | setPipeline (pipeline : RenderPipeline)
  | setBindGroup (index : Nat) (bind_group : BindGroup) (offsets : List DynamicOffset)
  | setBlendConstant (color : Color)
  | setIndexBuffer (buffer : Buffer) (format : IndexFormat)
  | setVertexBuffer (slot : Nat) (buffer : Buffer)
  | setScissorRect (x y width height : Nat)
  | setViewport (x y w h min_depth max_depth : F32)
  | setStencilReference (reference : Nat)
  | draw (vertices : URange) (instances : URange)
  | insertDebugMarker (label : String)
  | pushDebugGroup (label : String)
  | popDebugGroup
  | drawIndexed (indices : URange) (base_vertex : Int) (instances : URange)
  | drawIndirect (indirect_buffer : Buffer) (indirect_offset : BufferAddress)
  | drawIndexedIndirect (indirect_buffer : Buffer) (indirect_offset : BufferAddress)
  | endRenderPass
  | queueSubmit
  | present (frame : SurfaceTexture)
deriving DecidableEq, Repr

/-- The replay `match` of `RenderPass::render` (command.rs:190-233): each
`GpuCommand` variant is dispatched to its device call.  `SetBindGroup`'s
`None` offsets become the empty slice, exactly as in the source.
`ExecuteBundles` is `todo!()` — a panic — hence `none`. -/
def GpuCommand.dispatch : GpuCommand → Option DeviceOp
  | .SetPipeline p => some (.setPipeline p)
  | .SetBindGroup i g offsets => some (.setBindGroup i g (offsets.getD []))
  | .SetBlendConstant c => some (.setBlendConstant c)
  | .SetIndexBuffer b fmt => some (.setIndexBuffer b fmt)
  | .SetVertexBuffer s b => some (.setVertexBuffer s b)
  | .SetScissorRect x y w h => some (.setScissorRect x y w h)
  | .SetViewPort x y w h mind maxd => some (.setViewport x y w h mind maxd)
  | .SetStencilReference r => some (.setStencilReference r)
  | .Draw v i => some (.draw v i)
  | .InsertDebugMarker l => some (.insertDebugMarker l)
  | .PushDebugGroup l => some (.pushDebugGroup l)
  | .PopDebugGroup => some .popDebugGroup
  | .DrawIndexed idx bv inst => some (.drawIndexed idx bv inst)
  | .DrawIndirect b o => some (.drawIndirect b o)
  | .DrawIndexedIndirect b o => some (.drawIndexedIndirect b o)
  | .ExecuteBundles => none

/-- The transfer-replay loop body (command.rs:140-158). -/
def EncoderCommand.replay : EncoderCommand → DeviceOp
  | .CopyBufferToBuffer src so dst dofs sz => .copyBufferToBuffer src so dst dofs sz

/-- The draw-replay loop (command.rs:190-233), left to right.  `.ok` is the
trace of a completed loop; `.error` carries the calls made before the
`todo!()` panic on `ExecuteBundles`. -/
def replayDraws : List GpuCommand → Except (List DeviceOp) (List DeviceOp)
  | [] => .ok []
  | c :: cs =>
    match c.dispatch with
    | none => .error []
    | some op =>
      match replayDraws cs with
      | .ok t => .ok (op :: t)
      | .error t => .error (op :: t)

/-- The transfer-command trace of a pass (command.rs:140-158). -/
def RenderPass.copyTrace (p : RenderPass) : List DeviceOp :=
  p.command_queue.encoder_commands.map EncoderCommand.replay

/-- The `RenderPassDescriptor` built by `render` (command.rs:162-188): one
color attachment on the acquired frame's view, load per `op`, store `true`;
one depth attachment on the pass's captured depth texture, clear-to-1.0 or
load per `op`, store `true`, no stencil ops. -/
def RenderPass.descriptor (p : RenderPass) (view : TextureView) : RenderPassDescriptor :=
  { label := some "Render Pass"
    color_attachments :=
      [some
        { view := view
          resolve_target := none
          ops :=
            { load :=
                match p.op with
                | .Clear color => .Clear color
                | .LoadFromMemory => .Load
              store := true } }]
    depth_stencil_attachment :=
      some
        { view := p.depth_texture.view
          depth_ops :=
            some
              { load :=
                  match p.op with
                  | .Clear _ => .Clear 1
                  | .LoadFromMemory => .Load
                store := true }
          stencil_ops := none } }

/-- Result of `RenderPass::render`: success (with the mutated pass and the
device-call trace), a propagated surface error (pass untouched, nothing
submitted), or a panic from `todo!()` (partial trace). -/
inductive RenderResult
  | ok (pass : RenderPass) (trace : List DeviceOp)
  | surfaceErr (e : SurfaceError) (pass : RenderPass)
  | panicked (pass : RenderPass) (trace : List DeviceOp)
deriving DecidableEq, Repr

/-- The device calls a `RenderResult` performed. -/
def RenderResult.trace : RenderResult → List DeviceOp
  | .ok _ t => t
  | .surfaceErr _ _ => []
  | .panicked _ t => t

/-- Whether `render` returned `Ok`. -/
def RenderResult.isOk : RenderResult → Bool
  | .ok _ _ => true
  | _ => false

/-- `RenderPass::render` (command.rs:131-240).  The outcome of
`self.surface.get_current_texture()` is passed in as `acquire`.  On success:
replay transfers, open the pass scope, replay draws, close the scope, clear
the queue, submit the encoder, present the frame. -/
def RenderPass.render (p : RenderPass) (acquire : Except SurfaceError SurfaceTexture) :
    RenderResult :=
  match acquire with
  | .error e => .surfaceErr e p
  | .ok frame =>
    match replayDraws p.command_queue.draw_commands with
    | .error t =>
      .panicked p (p.copyTrace ++ DeviceOp.beginRenderPass (p.descriptor frame.view) :: t)
    | .ok t =>
      .ok { p with command_queue := p.command_queue.clear }
        (p.copyTrace ++ DeviceOp.beginRenderPass (p.descriptor frame.view) ::
          (t ++ [DeviceOp.endRenderPass, DeviceOp.queueSubmit, DeviceOp.present frame]))

/-- Whether a device op is a buffer-to-buffer copy. -/
def DeviceOp.isCopy : DeviceOp → Bool
  | .copyBufferToBuffer .. => true
  | _ => false

/-- Whether a device op opens a render-pass recording scope. -/
def DeviceOp.isBeginPass : DeviceOp → Bool
  | .beginRenderPass _ => true
  | _ => false

/-- Whether a device op is a command-buffer submission. -/
def DeviceOp.isQueueSubmit : DeviceOp → Bool
  | .queueSubmit => true
  | _ => false

/-- `Mesh` from `src/gfx/model.rs`. -/
structure Mesh where
  name : String
  vert_buff : Buffer
  index_buff : Buffer
  num_elements : Nat
  material : Nat
deriving DecidableEq, Repr

/-- `Material` from `src/gfx/model.rs` (texture fields are opaque to the
drawing helpers). -/
structure Material where
  name : String
  diffuse_texture : Texture
  normal_texture : Texture
  bind_group : BindGroup
deriving DecidableEq, Repr

/-- `Model` from `src/gfx/model.rs`. -/
structure Model where
  meshes : List Mesh
  materials : List Material
deriving DecidableEq, Repr

namespace mesh

/-- `mesh::draw_mesh_instanced` (src/eng/render.rs:686-702) in command-list
form: the source body is the fixed sequence of recording calls
`set_vertex_buffer(0, vert_buff)`, `set_index_buffer(index_buff, Uint32)`,
`set_bind_group(0, material)`, `set_bind_group(1, camera)`,
`set_bind_group(2, light)`, `draw_indexed(0..num_elements, 0, instances)`;
the variant consumed by `DrawCtx::draw_mesh_instanced` in `gfx/draw.rs`
returns that same sequence as a command list (its defining module is not
under `src/`; empty dynamic-offset slices are carried as `none`). -/
def draw_mesh_instanced (m : Mesh) (mat : Material) (instances : URange)
    (camera_bind_group light_bind_group : BindGroup) : List GpuCommand :=
  [ .SetVertexBuffer 0 m.vert_buff,
    .SetIndexBuffer m.index_buff .Uint32,
    .SetBindGroup 0 mat.bind_group none,
    .SetBindGroup 1 camera_bind_group none,
    .SetBindGroup 2 light_bind_group none,
    .DrawIndexed ⟨0, m.num_elements⟩ 0 instances ]

/-- The per-mesh loop of `mesh::draw_model_instanced` (src/eng/render.rs:
724-734): for each mesh, look up `materials[mesh.material]` — an
index-out-of-range panic, modelled as `none`, if the index is out of
bounds — and expand the mesh. -/
def draw_model_meshes (materials : List Material) (instances : URange)
    (camera_bind_group light_bind_group : BindGroup) :
    List Mesh → Option (List GpuCommand)
  | [] => some []
  | m :: ms =>
    match materials.get? m.material with
    | none => none
    | some mat =>
      match draw_model_meshes materials instances camera_bind_group light_bind_group ms with
      | none => none
      | some rest =>
        some (draw_mesh_instanced m mat instances camera_bind_group light_bind_group ++ rest)

/-- `mesh::draw_model_instanced` (src/eng/render.rs:715-735). -/
def draw_model_instanced (model : Model) (instances : URange)
    (camera_bind_group light_bind_group : BindGroup) : Option (List GpuCommand) :=
  draw_model_meshes model.materials instances camera_bind_group light_bind_group model.meshes

end mesh

/-- Modelled from the spec: the pass-managing Draw Context (spec §3, §4.3).
The `gfx/draw.rs` under `src/` is a stale flat-queue variant inconsistent
with its in-tree callers — `eng/app.rs` calls `ctx.begin_render_pass(op)` and
`ctx.submit()`, and `RenderPass::from_draw_ctx` (command.rs:127-129) reads
`ctx.device` and `ctx.depth_texture` — so the DrawCtx those callers use is
missing from `src/` and is modelled here: an ordered list of RenderPasses
plus the snapshots taken from the window (camera/light bind groups, default
and light pipelines, device surface, depth texture). -/
structure DrawCtx where
  device : DeviceSurface
  depth_texture : Texture
  render_passes : List RenderPass
  camera_bind_group : BindGroup
  light_bind_group : BindGroup
  render_pipeline : RenderPipeline
  light_render_pipeline : RenderPipeline
deriving DecidableEq, Repr

/-- `RenderPass::from_draw_ctx` (src/eng/command.rs:127-129). -/
def RenderPass.from_draw_ctx (ctx : DrawCtx) (op : RenderPassOp) : RenderPass :=
  RenderPass.new ctx.device ctx.depth_texture op

/-- Append one draw command to a pass's queue. -/
def RenderPass.push_draw (p : RenderPass) (c : GpuCommand) : RenderPass :=
  { p with
    command_queue :=
      { p.command_queue with draw_commands := p.command_queue.draw_commands ++ [c] } }

/-- Append several draw commands to a pass's queue. -/
def RenderPass.push_draws (p : RenderPass) (cs : List GpuCommand) : RenderPass :=
  { p with
    command_queue :=
      { p.command_queue with draw_commands := p.command_queue.draw_commands ++ cs } }

/-- Append one transfer command to a pass's queue. -/
def RenderPass.push_transfer (p : RenderPass) (c : EncoderCommand) : RenderPass :=
  { p with
    command_queue :=
      { p.command_queue with
        encoder_commands := p.command_queue.encoder_commands ++ [c] } }

/-- Modelled from the spec: `begin_render_pass(op)` pushes a new RenderPass
(constructed from the context's current surface/depth-texture via
`from_draw_ctx`) onto the list; it becomes the new current (last) pass. -/
def DrawCtx.begin_render_pass (ctx : DrawCtx) (op : RenderPassOp) : DrawCtx :=
  { ctx with render_passes := ctx.render_passes ++ [RenderPass.from_draw_ctx ctx op] }

/-- Modelled from the spec: `current_pass_mut()` returns the last pass and
fails (programming error) if the list is empty. -/
def DrawCtx.current_pass (ctx : DrawCtx) : Option RenderPass :=
  ctx.render_passes.getLast?

/-- Mutation through `current_pass_mut()`: `none` (the fail-fast programming
error) when no pass has been begun, otherwise the context with the last pass
updated. -/
def DrawCtx.modifyCurrentPass (ctx : DrawCtx) (f : RenderPass → RenderPass) :
    Option DrawCtx :=
  match ctx.render_passes.getLast? with
  | none => none
  | some p =>
    some { ctx with render_passes := ctx.render_passes.dropLast ++ [f p] }

/-- Modelled from the spec: `set_pipeline` appends one `SetPipeline` command
to the current pass's queue. -/
def DrawCtx.set_pipeline (ctx : DrawCtx) (pipeline : RenderPipeline) : Option DrawCtx :=
  ctx.modifyCurrentPass (fun p => p.push_draw (.SetPipeline pipeline))

/-- Modelled from the spec: `set_bind_group` appends one `SetBindGroup`. -/
def DrawCtx.set_bind_group (ctx : DrawCtx) (index : Nat) (bind_group : BindGroup)
    (offsets : Option (List DynamicOffset)) : Option DrawCtx :=
  ctx.modifyCurrentPass (fun p => p.push_draw (.SetBindGroup index bind_group offsets))

/-- Modelled from the spec: `set_vertex_buffer` appends one `SetVertexBuffer`. -/
def DrawCtx.set_vertex_buffer (ctx : DrawCtx) (slot : Nat) (buffer : Buffer) :
    Option DrawCtx :=
  ctx.modifyCurrentPass (fun p => p.push_draw (.SetVertexBuffer slot buffer))

/-- Modelled from the spec: `draw_indexed` appends one `DrawIndexed`. -/
def DrawCtx.draw_indexed (ctx : DrawCtx) (indices : URange) (base_vertex : Int)
    (instances : URange) : Option DrawCtx :=
  ctx.modifyCurrentPass (fun p => p.push_draw (.DrawIndexed indices base_vertex instances))

/-- Modelled from the spec: `copy_buffer` appends one `CopyBufferToBuffer`
transfer command to the current pass. -/
def DrawCtx.copy_buffer (ctx : DrawCtx) (src : Buffer) (src_offset : BufferAddress)
    (dst : Buffer) (dst_offset : BufferAddress) (copy_size : BufferAddress) :
    Option DrawCtx :=
  ctx.modifyCurrentPass
    (fun p => p.push_transfer (.CopyBufferToBuffer src src_offset dst dst_offset copy_size))

/-- `DrawCtx::draw_mesh_instanced` (gfx/draw.rs:230-242 gives the shape:
push `SetPipeline(render_pipeline)`, then extend with the mesh expansion),
routed through the current pass. -/
def DrawCtx.draw_mesh_instanced (ctx : DrawCtx) (m : Mesh) (mat : Material)
    (instances : URange) : Option DrawCtx :=
  ctx.modifyCurrentPass
    (fun p =>
      p.push_draws
        (GpuCommand.SetPipeline ctx.render_pipeline ::
          mesh.draw_mesh_instanced m mat instances ctx.camera_bind_group ctx.light_bind_group))

/-- `DrawCtx::draw_mesh` (gfx/draw.rs:227-229): instanced over `0..1`. -/
def DrawCtx.draw_mesh (ctx : DrawCtx) (m : Mesh) (mat : Material) : Option DrawCtx :=
  ctx.draw_mesh_instanced m mat ⟨0, 1⟩

/-- `DrawCtx::draw_model_instanced` (gfx/draw.rs:247-258 gives the shape:
push `SetPipeline(render_pipeline)`, then extend with the model expansion);
an out-of-range material index panics (`none`). -/
def DrawCtx.draw_model_instanced (ctx : DrawCtx) (model : Model) (instances : URange) :
    Option DrawCtx :=
  match mesh.draw_model_instanced model instances ctx.camera_bind_group ctx.light_bind_group with
  | none => none
  | some cmds =>
    ctx.modifyCurrentPass
      (fun p => p.push_draws (GpuCommand.SetPipeline ctx.render_pipeline :: cmds))

/-- `DrawCtx::draw_model` (gfx/draw.rs:244-246): instanced over `0..1`. -/
def DrawCtx.draw_model (ctx : DrawCtx) (model : Model) : Option DrawCtx :=
  ctx.draw_model_instanced model ⟨0, 1⟩

/-- Result of `DrawCtx::submit`: every pass rendered (`ok` with the frame's
device-call trace), or the first failing pass's surface error together with
the passes that were never attempted (their queues intact), or a replay
panic. -/
inductive SubmitResult
  | ok (trace : List DeviceOp)
  | failed (e : SurfaceError) (notAttempted : List RenderPass) (trace : List DeviceOp)
  | panicked (trace : List DeviceOp)
deriving DecidableEq, Repr

/-- The iteration of `submit`: render each pass in creation order, feeding it
the outcome of its surface acquisition (`acquire i` for the i-th render
call); the first failure short-circuits. -/
def submitPasses (acquire : Nat → Except SurfaceError SurfaceTexture) :
    List RenderPass → Nat → SubmitResult
  | [], _ => .ok []
  | p :: ps, i =>
    match p.render (acquire i) with
    | .surfaceErr e _ => .failed e ps []
    | .panicked _ t => .panicked t
    | .ok _ t =>
      match submitPasses acquire ps (i + 1) with
      | .ok t2 => .ok (t ++ t2)
      | .failed e rest t2 => .failed e rest (t ++ t2)
      | .panicked t2 => .panicked (t ++ t2)

/-- Modelled from the spec: `submit(self)` consumes the context and calls
`render()` on every RenderPass in creation order, short-circuiting on the
first error. -/
def DrawCtx.submit (ctx : DrawCtx) (acquire : Nat → Except SurfaceError SurfaceTexture) :
    SubmitResult :=
  submitPasses acquire ctx.render_passes 0

/-- The concatenated device-call traces of rendering a list of passes in
order, the i-th against `acquire (i0 + i)`. -/
def renderAllTrace (acquire : Nat → Except SurfaceError SurfaceTexture) :
    Nat → List RenderPass → List DeviceOp
  | _, [] => []
  | i, p :: ps => (p.render (acquire i)).trace ++ renderAllTrace acquire (i + 1) ps

/-- `winit::dpi::PhysicalSize<u32>`. -/
structure PhysicalSize where
  width : Nat
  height : Nat
deriving DecidableEq, Repr

/-- `RenderWindow` from `src/gfx/window.rs` (the fields this core reads and
writes; the camera and default shader are out of scope, while the
camera/light bind groups and default/light pipelines the spec's
`from_window` snapshots are carried as opaque handles). -/
structure RenderWindow where
  device_surface : DeviceSurface
  config : SurfaceConfiguration
  size : PhysicalSize
  depth_texture : Texture
  camera_bind_group : BindGroup
  light_bind_group : BindGroup
  render_pipeline : RenderPipeline
  light_render_pipeline : RenderPipeline
deriving DecidableEq, Repr

/-- `RenderWindow::resize` (src/gfx/window.rs:209-229): for a positive new
size, update `size`, write the new dimensions into the surface
configuration (the source then reconfigures the surface with it) and replace
the depth-texture handle with a fresh one built from the updated
configuration; otherwise leave them unchanged.  The camera-projection update
is out of scope. -/
def RenderWindow.resize (w : RenderWindow) (new_size : PhysicalSize) : RenderWindow :=
  if 0 < new_size.width ∧ 0 < new_size.height then
    let config := { w.config with width := new_size.width, height := new_size.height }
    { w with
      size := new_size
      config := config
      depth_texture := Texture.depth_texture config }
  else
    w

/-- `RenderWindow::create_draw_context` (src/gfx/window.rs:205-207):
`DrawCtx::new(&self.device_surface, &self.depth_texture)`, snapshotting the
window's current handles; the bind-group/pipeline snapshots are the spec's
`from_window` behaviour. -/
def RenderWindow.create_draw_context (w : RenderWindow) : DrawCtx :=
  { device := w.device_surface
    depth_texture := w.depth_texture
    render_passes := []
    camera_bind_group := w.camera_bind_group
    light_bind_group := w.light_bind_group
    render_pipeline := w.render_pipeline
    light_render_pipeline := w.light_render_pipeline }

/-- The per-mesh command group of a model expansion: the mesh's six-command
sequence with its material looked up in the model's material list (empty on a
dangling index; the theorems only use it where the index is in bounds). -/
def meshGroup (materials : List Material) (instances : URange)
    (camera_bind_group light_bind_group : BindGroup) (m : Mesh) : List GpuCommand :=
  match materials.get? m.material with
  | some mat => mesh.draw_mesh_instanced m mat instances camera_bind_group light_bind_group
  | none => []

/-! Concrete values used by witnesses and counterexamples. -/

/-- A concrete device surface. -/
def surf0 : DeviceSurface := ⟨0⟩

/-- A concrete depth texture. -/
def depthTex0 : Texture := ⟨⟨800, 600⟩⟩

/-- A concrete acquired frame. -/
def frame0 : SurfaceTexture := ⟨⟨800, 600⟩⟩

/-- A concrete render pipeline handle. -/
def pipe0 : RenderPipeline := ⟨1⟩

/-- A concrete light render pipeline handle. -/
def pipeLight0 : RenderPipeline := ⟨2⟩

/-- A concrete camera bind group. -/
def bgCam0 : BindGroup := ⟨10⟩

/-- A concrete light bind group. -/
def bgLight0 : BindGroup := ⟨11⟩

/-- A concrete material bind group. -/
def bgMat0 : BindGroup := ⟨12⟩

/-- A concrete vertex buffer. -/
def buf0 : Buffer := ⟨20⟩

/-- A concrete index buffer. -/
def buf1 : Buffer := ⟨21⟩

/-- A pass whose queue holds the unimplemented `ExecuteBundles` command. -/
def passEB : RenderPass :=
  { command_queue := { draw_commands := [.ExecuteBundles], encoder_commands := [] }
    surface := surf0
    depth_texture := depthTex0
    op := .LoadFromMemory }

/-- A pass with one transfer and two draw commands queued. -/
def passOne : RenderPass :=
  { command_queue :=
      { draw_commands := [.SetPipeline pipe0, .SetVertexBuffer 0 buf0]
        encoder_commands := [.CopyBufferToBuffer buf0 0 buf1 0 16] }
    surface := surf0
    depth_texture := depthTex0
    op := .LoadFromMemory }

/-- An empty clear-to-black pass. -/
def passClear : RenderPass := RenderPass.new surf0 depthTex0 (.Clear Color.BLACK)

/-- An empty load pass. -/
def passLoad : RenderPass := RenderPass.new surf0 depthTex0 .LoadFromMemory

/-- A pass with one queued command, never rendered in the C4 scenario. -/
def passC : RenderPass := passClear.push_draw .PopDebugGroup

/-- A draw context with no begun passes. -/
def ctx0 : DrawCtx :=
  { device := surf0
    depth_texture := depthTex0
    render_passes := []
    camera_bind_group := bgCam0
    light_bind_group := bgLight0
    render_pipeline := pipe0
    light_render_pipeline := pipeLight0 }

/-- The pass `begin_render_pass` creates on `ctx0`. -/
def pass1 : RenderPass := RenderPass.from_draw_ctx ctx0 RenderPassOp.CLEAR_BLACK

/-- A draw context with exactly one begun pass. -/
def ctx1 : DrawCtx := { ctx0 with render_passes := [pass1] }

/-- A draw context with three begun passes; in the C4 scenario pass 2's
surface acquisition fails. -/
def ctx3 : DrawCtx := { ctx0 with render_passes := [passClear, passLoad, passC] }

/-- Acquisition outcomes where the second render call's surface is lost. -/
def acquireFail1 : Nat → Except SurfaceError SurfaceTexture :=
  fun i => if i = 1 then .error .Lost else .ok frame0

/-- A 36-element mesh referencing material 0. -/
def mesh36 : Mesh :=
  { name := "cube", vert_buff := buf0, index_buff := buf1, num_elements := 36, material := 0 }

/-- A concrete material. -/
def mat0 : Material :=
  { name := "m", diffuse_texture := ⟨⟨1, 1⟩⟩, normal_texture := ⟨⟨1, 1⟩⟩
    bind_group := bgMat0 }

/-- A model whose only mesh references an existing material. -/
def modelGood : Model := { meshes := [mesh36], materials := [mat0] }

/-- A model whose mesh references material 1 while only one material exists. -/
def modelBad : Model :=
  { meshes := [{ mesh36 with material := 1 }], materials := [mat0] }

/-- A concrete window whose depth texture matches its configuration, as
`RenderWindow::new` establishes. -/
def win0 : RenderWindow :=
  { device_surface := surf0
    config := ⟨800, 600⟩
    size := ⟨800, 600⟩
    depth_texture := Texture.depth_texture ⟨800, 600⟩
    camera_bind_group := bgCam0
    light_bind_group := bgLight0
    render_pipeline := pipe0
    light_render_pipeline := pipeLight0 }

/-! Shared helper lemmas. -/

/-- Every command other than the unimplemented `ExecuteBundles` dispatches to
a device call. -/
theorem dispatch_some_of_ne (c : GpuCommand) (h : c ≠ .ExecuteBundles) :
    ∃ op, c.dispatch = some op := by
  cases c
  case ExecuteBundles => exact absurd rfl h
  all_goals exact ⟨_, rfl⟩

/-- A queue with no `ExecuteBundles` replays completely, producing exactly the
dispatched image of the queue. -/
theorem replayDraws_eq_ok (cmds : List GpuCommand)
    (h : GpuCommand.ExecuteBundles ∉ cmds) :
    replayDraws cmds = .ok (cmds.filterMap GpuCommand.dispatch) := by
  induction cmds with
  | nil => rfl
  | cons c cs ih =>
    have hc : c ≠ GpuCommand.ExecuteBundles := by
      intro hh; exact h (hh ▸ List.mem_cons_self c cs)
    obtain ⟨op, hop⟩ := dispatch_some_of_ne c hc
    have hcs : GpuCommand.ExecuteBundles ∉ cs := fun hh => h (List.mem_cons_of_mem _ hh)
    simp [replayDraws, hop, ih hcs, List.filterMap_cons]

/-- With no `ExecuteBundles` queued, the replay emits one device call per
command. -/
theorem filterMap_dispatch_length (cmds : List GpuCommand)
    (h : GpuCommand.ExecuteBundles ∉ cmds) :
    (cmds.filterMap GpuCommand.dispatch).length = cmds.length := by
  induction cmds with
  | nil => rfl
  | cons c cs ih =>
    have hc : c ≠ GpuCommand.ExecuteBundles := by
      intro hh; exact h (hh ▸ List.mem_cons_self c cs)
    obtain ⟨op, hop⟩ := dispatch_some_of_ne c hc
    have hcs : GpuCommand.ExecuteBundles ∉ cs := fun hh => h (List.mem_cons_of_mem _ hh)
    simp [List.filterMap_cons, hop, ih hcs]

/-- With no `ExecuteBundles` queued, the i-th replayed device call is the
dispatch of the i-th queued command. -/
theorem filterMap_dispatch_getElem (cmds : List GpuCommand)
    (h : GpuCommand.ExecuteBundles ∉ cmds) (i : Nat) :
    (cmds.filterMap GpuCommand.dispatch)[i]? = cmds[i]?.bind GpuCommand.dispatch := by
  induction cmds generalizing i with
  | nil => simp
  | cons c cs ih =>
    have hc : c ≠ GpuCommand.ExecuteBundles := by
      intro hh; exact h (hh ▸ List.mem_cons_self c cs)
    obtain ⟨op, hop⟩ := dispatch_some_of_ne c hc
    have hcs : GpuCommand.ExecuteBundles ∉ cs := fun hh => h (List.mem_cons_of_mem _ hh)
    cases i with
    | zero => simp [List.filterMap_cons, hop]
    | succ n => simp [List.filterMap_cons, hop, ih hcs]

/-- No dispatched draw command is a copy, a pass-open, or a submission. -/
theorem dispatch_op_flags (c : GpuCommand) (op : DeviceOp) (h : c.dispatch = some op) :
    op.isCopy = false ∧ op.isBeginPass = false ∧ op.isQueueSubmit = false := by
  cases c <;> simp [GpuCommand.dispatch] at h <;> subst h <;>
    simp [DeviceOp.isCopy, DeviceOp.isBeginPass, DeviceOp.isQueueSubmit]

/-- Every device call the draw replay makes (whether the loop completes or
panics) is a dispatched command: never a copy, pass-open, or submission. -/
theorem replayDraws_ops (cmds : List GpuCommand) (t : List DeviceOp)
    (h : replayDraws cmds = .ok t ∨ replayDraws cmds = .error t) :
    ∀ op ∈ t, op.isCopy = false ∧ op.isBeginPass = false ∧ op.isQueueSubmit = false := by
  induction cmds generalizing t with
  | nil =>
    rcases h with h | h
    · simp only [replayDraws] at h
      cases h
      simp
    · simp [replayDraws] at h
  | cons c cs ih =>
    cases hd : c.dispatch with
    | none =>
      rcases h with h | h
      · simp [replayDraws, hd] at h
      · simp only [replayDraws, hd] at h
        cases h
        simp
    | some op =>
      have hflags := dispatch_op_flags c op hd
      cases hr : replayDraws cs with
      | ok t0 =>
        rcases h with h | h
        · simp only [replayDraws, hd, hr] at h
          cases h
          intro x hx
          rcases List.mem_cons.mp hx with rfl | hx
          · exact hflags
          · exact ih t0 (Or.inl hr) x hx
        · simp [replayDraws, hd, hr] at h
      | error t0 =>
        rcases h with h | h
        · simp [replayDraws, hd, hr] at h
        · simp only [replayDraws, hd, hr] at h
          cases h
          intro x hx
          rcases List.mem_cons.mp hx with rfl | hx
          · exact hflags
          · exact ih t0 (Or.inr hr) x hx

/-- Every op in a pass's transfer trace is a copy, and never a pass-open or a
submission. -/
theorem copyTrace_ops (p : RenderPass) :
    ∀ op ∈ p.copyTrace,
      op.isCopy = true ∧ op.isBeginPass = false ∧ op.isQueueSubmit = false := by
  intro op hop
  simp only [RenderPass.copyTrace, List.mem_map] at hop
  obtain ⟨e, _, rfl⟩ := hop
  cases e
  simp [EncoderCommand.replay, DeviceOp.isCopy, DeviceOp.isBeginPass, DeviceOp.isQueueSubmit]

/-- Two successive mutations through `current_pass_mut` compose. -/
theorem modifyCurrentPass_comp (ctx : DrawCtx) (f g : RenderPass → RenderPass) :
    (ctx.modifyCurrentPass f).bind (fun c => c.modifyCurrentPass g)
      = ctx.modifyCurrentPass (fun p => g (f p)) := by
  rcases List.eq_nil_or_concat ctx.render_passes with hnil | ⟨l, a, hl⟩
  · simp [DrawCtx.modifyCurrentPass, hnil]
  · simp [DrawCtx.modifyCurrentPass, hl, List.getLast?_concat, List.dropLast_concat]

/-! Claim theorems. -/

/-- Claim C1 (amended: queues containing the reserved, unimplemented
`ExecuteBundles` variant are excluded, since replaying it aborts in
`todo!()`): for every sequence of draw commands without `ExecuteBundles`,
`render` replays them against the open render-pass scope in insertion order,
dispatching each tagged variant one-to-one to its corresponding device call
(the replayed segment has one op per command, and its i-th op is the dispatch
of the i-th command), with no reordering, batching, duplication, or
omission. -/
theorem render_replays_in_order (p : RenderPass) (frame : SurfaceTexture)
    (h : GpuCommand.ExecuteBundles ∉ p.command_queue.draw_commands) :
    p.render (.ok frame)
        = .ok { p with command_queue := p.command_queue.clear }
            (p.copyTrace ++ DeviceOp.beginRenderPass (p.descriptor frame.view) ::
              (p.command_queue.draw_commands.filterMap GpuCommand.dispatch ++
                [DeviceOp.endRenderPass, DeviceOp.queueSubmit, DeviceOp.present frame]))
    ∧ (p.command_queue.draw_commands.filterMap GpuCommand.dispatch).length
        = p.command_queue.draw_commands.length
    ∧ ∀ i : Nat, (p.command_queue.draw_commands.filterMap GpuCommand.dispatch)[i]?
        = p.command_queue.draw_commands[i]?.bind GpuCommand.dispatch := by
  refine ⟨?_, filterMap_dispatch_length _ h, fun i => filterMap_dispatch_getElem _ h i⟩
  simp [RenderPass.render, replayDraws_eq_ok _ h]

/-- Claim C1, witness: a concrete two-command queue replayed in order. -/
theorem render_replays_in_order_witness :
    RenderPass.render passOne (Except.ok frame0)
      = RenderResult.ok { passOne with command_queue := passOne.command_queue.clear }
          (passOne.copyTrace ++ DeviceOp.beginRenderPass (passOne.descriptor frame0.view) ::
            (passOne.command_queue.draw_commands.filterMap GpuCommand.dispatch ++
              [DeviceOp.endRenderPass, DeviceOp.queueSubmit, DeviceOp.present frame0])) :=
  (render_replays_in_order passOne frame0 (by decide)).1

/-- Claim C1, counterexample to the unamended claim: a queue holding the
tagged variant `ExecuteBundles` is not dispatched one-to-one to device calls —
`render` hits `todo!()` (a panic) right after opening the pass, so the
sequence is not replayed. -/
theorem render_executeBundles_panics :
    passEB.command_queue.draw_commands = [GpuCommand.ExecuteBundles]
    ∧ RenderPass.render passEB (.ok frame0)
        = .panicked passEB
            (passEB.copyTrace ++ [DeviceOp.beginRenderPass (passEB.descriptor frame0.view)])
    ∧ (RenderPass.render passEB (.ok frame0)).isOk = false :=
  ⟨rfl, rfl, rfl⟩

/-- Claim C2: every queued transfer command is replayed against the encoder
strictly before the render-pass scope opens (the trace is the transfer trace,
then the pass-open, then a copy-free tail), and recording a transfer and a
draw command in either interleaving order produces the same context, so the
caller's interleaving is immaterial. -/
theorem transfers_replayed_before_pass :
    (∀ (p : RenderPass) (frame : SurfaceTexture),
      ∃ tail,
        (p.render (.ok frame)).trace
            = p.copyTrace ++ DeviceOp.beginRenderPass (p.descriptor frame.view) :: tail
        ∧ tail.countP (fun op => op.isCopy) = 0)
    ∧ ∀ (ctx : DrawCtx) (src : Buffer) (so : BufferAddress) (dst : Buffer)
        (dofs : BufferAddress) (sz : BufferAddress) (c : GpuCommand),
        (ctx.modifyCurrentPass (fun p => p.push_draw c)).bind
            (fun c2 => c2.copy_buffer src so dst dofs sz)
          = (ctx.copy_buffer src so dst dofs sz).bind
              (fun c2 => c2.modifyCurrentPass (fun p => p.push_draw c)) := by
  constructor
  · intro p frame
    cases hr : replayDraws p.command_queue.draw_commands with
    | ok t =>
      refine ⟨t ++ [DeviceOp.endRenderPass, DeviceOp.queueSubmit, DeviceOp.present frame],
        ?_, ?_⟩
      · simp [RenderPass.render, hr, RenderResult.trace]
      · rw [List.countP_eq_zero]
        intro op hop
        rcases List.mem_append.mp hop with h1 | h2
        · simp [(replayDraws_ops _ t (Or.inl hr) op h1).1]
        · simp only [List.mem_cons, List.not_mem_nil, or_false] at h2
          rcases h2 with rfl | rfl | rfl <;> simp [DeviceOp.isCopy]
    | error t =>
      refine ⟨t, ?_, ?_⟩
      · simp [RenderPass.render, hr, RenderResult.trace]
      · rw [List.countP_eq_zero]
        intro op hop
        simp [(replayDraws_ops _ t (Or.inr hr) op hop).1]
  · intro ctx src so dst dofs sz c
    simp only [DrawCtx.copy_buffer]
    rw [modifyCurrentPass_comp, modifyCurrentPass_comp]
    rfl

/-- Claim C3: a `Clear(color)` pass opens with color load `Clear(color)` and
depth load `Clear(1.0)`; a `LoadFromMemory` pass opens with `Load` on both
attachments; both stores are `true` and no stencil ops are configured; and
the replay opens exactly one render-pass scope, with exactly this
descriptor. -/
theorem clear_vs_load_ops (p : RenderPass) (frame : SurfaceTexture) :
    ∃ ca dops,
      (p.render (.ok frame)).trace.filter DeviceOp.isBeginPass
          = [DeviceOp.beginRenderPass (p.descriptor frame.view)]
      ∧ (p.descriptor frame.view).color_attachments = [some ca]
      ∧ (p.descriptor frame.view).depth_stencil_attachment
          = some { view := p.depth_texture.view, depth_ops := some dops, stencil_ops := none }
      ∧ ca.view = frame.view ∧ ca.resolve_target = none
      ∧ ca.ops.store = true ∧ dops.store = true
      ∧ (∀ c, p.op = .Clear c → ca.ops.load = .Clear c ∧ dops.load = .Clear 1)
      ∧ (p.op = .LoadFromMemory → ca.ops.load = .Load ∧ dops.load = .Load) := by
  refine ⟨{ view := frame.view
            resolve_target := none
            ops :=
              { load :=
                  match p.op with
                  | .Clear color => .Clear color
                  | .LoadFromMemory => .Load
                store := true } },
          { load :=
              match p.op with
              | .Clear _ => .Clear 1
              | .LoadFromMemory => .Load
            store := true },
          ?_, rfl, rfl, rfl, rfl, rfl, rfl, ?_, ?_⟩
  · have hcopy : p.copyTrace.filter DeviceOp.isBeginPass = [] := by
      rw [List.filter_eq_nil_iff]
      intro a ha
      simp [(copyTrace_ops p a ha).2.1]
    cases hr : replayDraws p.command_queue.draw_commands with
    | ok t =>
      have ht : t.filter DeviceOp.isBeginPass = [] := by
        rw [List.filter_eq_nil_iff]
        intro a ha
        simp [(replayDraws_ops _ t (Or.inl hr) a ha).2.1]
      simp [RenderPass.render, hr, RenderResult.trace, List.filter_append, hcopy, ht,
        DeviceOp.isBeginPass]
    | error t =>
      have ht : t.filter DeviceOp.isBeginPass = [] := by
        rw [List.filter_eq_nil_iff]
        intro a ha
        simp [(replayDraws_ops _ t (Or.inr hr) a ha).2.1]
      simp [RenderPass.render, hr, RenderResult.trace, List.filter_append, hcopy, ht,
        DeviceOp.isBeginPass]
  · intro c hc
    simp [hc]
  · intro hc
    simp [hc]

/-- Claim C3, witness: the clear-to-black pass opens exactly one scope with
its own descriptor. -/
theorem clear_vs_load_ops_witness :
    (RenderPass.render passClear (.ok frame0)).trace.filter DeviceOp.isBeginPass
      = [DeviceOp.beginRenderPass (passClear.descriptor frame0.view)] := by
  obtain ⟨ca, dops, hfil, _, _, _, _, _, _, hclear, _⟩ := clear_vs_load_ops passClear frame0
  have hcb := hclear Color.BLACK rfl
  exact hfil

/-- Claim C5: `render` clears the queue exactly when it succeeds — on `Ok`
both channels of the resulting pass are empty; on a failed surface
acquisition it returns that error with the pass (hence the queue) unchanged
and performs no device call (nothing submitted, nothing presented). -/
theorem render_clears_queue_iff_success (p : RenderPass)
    (a : Except SurfaceError SurfaceTexture) :
    (∀ p' t, p.render a = .ok p' t →
      p'.command_queue.draw_commands = [] ∧ p'.command_queue.encoder_commands = [])
    ∧ ∀ e, a = .error e →
        p.render a = .surfaceErr e p ∧ (p.render a).trace = [] := by
  constructor
  · intro p' t h
    cases a with
    | error e => simp [RenderPass.render] at h
    | ok frame =>
      cases hr : replayDraws p.command_queue.draw_commands with
      | error t0 => simp [RenderPass.render, hr] at h
      | ok t0 =>
        simp only [RenderPass.render, hr] at h
        cases h
        simp [CommandQueue.clear]
  · intro e he
    subst he
    exact ⟨rfl, rfl⟩

/-- Claim C5, witness: a successful render of the concrete pass leaves both
channels empty. -/
theorem render_clears_queue_iff_success_witness :
    ({ passOne with command_queue := passOne.command_queue.clear }).command_queue.draw_commands
        = []
    ∧ ({ passOne with
          command_queue := passOne.command_queue.clear }).command_queue.encoder_commands
        = [] :=
  (render_clears_queue_iff_success passOne (.ok frame0)).1 _ _ rfl

/-- A successful render submits exactly one command buffer. -/
theorem render_ok_trace_submitCount (p : RenderPass)
    (a : Except SurfaceError SurfaceTexture) (p' : RenderPass) (t : List DeviceOp)
    (h : p.render a = .ok p' t) : t.countP (fun op => op.isQueueSubmit) = 1 := by
  cases a with
  | error e => simp [RenderPass.render] at h
  | ok frame =>
    cases hr : replayDraws p.command_queue.draw_commands with
    | error t0 => simp [RenderPass.render, hr] at h
    | ok t0 =>
      simp only [RenderPass.render, hr] at h
      cases h
      have h1 : p.copyTrace.countP (fun op => op.isQueueSubmit) = 0 := by
        rw [List.countP_eq_zero]
        intro a ha
        simp [(copyTrace_ops p a ha).2.2]
      have h2 : t0.countP (fun op => op.isQueueSubmit) = 0 := by
        rw [List.countP_eq_zero]
        intro a ha
        simp [(replayDraws_ops _ t0 (Or.inl hr) a ha).2.2]
      simp only [List.countP_append, List.countP_cons, List.countP_nil]
      rw [h1, h2]
      simp [DeviceOp.isQueueSubmit]

/-- `submit` renders the prefix of passes whose acquisitions succeed, then
short-circuits at the pass whose acquisition fails, never attempting the
rest. -/
theorem submitPasses_short_circuit (acquire : Nat → Except SurfaceError SurfaceTexture)
    (p : RenderPass) (post : List RenderPass) (e : SurfaceError) :
    ∀ (pre : List RenderPass) (i : Nat),
      (∀ j (hj : j < pre.length),
        ∃ p' t, (pre.get ⟨j, hj⟩).render (acquire (i + j)) = .ok p' t) →
      acquire (i + pre.length) = .error e →
      submitPasses acquire (pre ++ p :: post) i
        = .failed e post (renderAllTrace acquire i pre) := by
  intro pre
  induction pre with
  | nil =>
    intro i _ herr
    simp only [Nat.add_zero, List.length_nil] at herr
    simp [submitPasses, RenderPass.render, herr, renderAllTrace]
  | cons q pre' ih =>
    intro i hok herr
    obtain ⟨q', t, hq⟩ := hok 0 (by simp)
    simp only [Nat.add_zero, List.get] at hq
    have hok' : ∀ j (hj : j < pre'.length),
        ∃ p' t, (pre'.get ⟨j, hj⟩).render (acquire (i + 1 + j)) = .ok p' t := by
      intro j hj
      have hmem := hok (j + 1) (by simpa using Nat.succ_lt_succ hj)
      rw [show i + 1 + j = i + (j + 1) by omega]
      simpa [List.get] using hmem
    have herr' : acquire (i + 1 + pre'.length) = .error e := by
      rw [show i + 1 + pre'.length = i + (pre'.length + 1) by omega]
      simpa [List.length_cons] using herr
    have hrec := ih (i + 1) hok' herr'
    simp [submitPasses, hq, hrec, renderAllTrace, RenderResult.trace]

/-- A prefix of successfully rendered passes submits exactly one command
buffer per pass. -/
theorem renderAllTrace_submitCount (acquire : Nat → Except SurfaceError SurfaceTexture) :
    ∀ (pre : List RenderPass) (i : Nat),
      (∀ j (hj : j < pre.length),
        ∃ p' t, (pre.get ⟨j, hj⟩).render (acquire (i + j)) = .ok p' t) →
      (renderAllTrace acquire i pre).countP (fun op => op.isQueueSubmit) = pre.length := by
  intro pre
  induction pre with
  | nil => intro i _; simp [renderAllTrace]
  | cons q pre' ih =>
    intro i hok
    obtain ⟨q', t, hq⟩ := hok 0 (by simp)
    simp only [Nat.add_zero, List.get] at hq
    have hok' : ∀ j (hj : j < pre'.length),
        ∃ p' t, (pre'.get ⟨j, hj⟩).render (acquire (i + 1 + j)) = .ok p' t := by
      intro j hj
      have hmem := hok (j + 1) (by simpa using Nat.succ_lt_succ hj)
      rw [show i + 1 + j = i + (j + 1) by omega]
      simpa [List.get] using hmem
    have hcount := render_ok_trace_submitCount q (acquire i) q' t hq
    simp [renderAllTrace, List.countP_append, hq, RenderResult.trace, hcount,
      ih (i + 1) hok']
    omega

/-- Claim C4 (spec-modelled `submit` over the source-embedded `render`):
`submit` calls `render()` on every pass in creation order; when the passes
split as `pre ++ p :: post` with every pass of `pre` rendering successfully
and `p`'s surface acquisition failing with `e`, `submit` returns that error,
the passes of `post` are returned untouched — their commands neither replayed
nor cleared, and absent from the device trace, which is exactly the traces of
`pre` — while each of the `pre` passes already submitted its own command
buffer (one submission per rendered pass). -/
theorem submit_short_circuits (ctx : DrawCtx)
    (acquire : Nat → Except SurfaceError SurfaceTexture) (pre : List RenderPass)
    (p : RenderPass) (post : List RenderPass) (e : SurfaceError)
    (hsplit : ctx.render_passes = pre ++ p :: post)
    (hok : ∀ j (hj : j < pre.length),
      ∃ p' t, (pre.get ⟨j, hj⟩).render (acquire j) = .ok p' t)
    (herr : acquire pre.length = .error e) :
    ctx.submit acquire = .failed e post (renderAllTrace acquire 0 pre)
    ∧ (renderAllTrace acquire 0 pre).countP (fun op => op.isQueueSubmit)
        = pre.length := by
  constructor
  · rw [DrawCtx.submit, hsplit]
    exact submitPasses_short_circuit acquire p post e pre 0
      (by simpa using hok) (by simpa using herr)
  · exact renderAllTrace_submitCount acquire pre 0 (by simpa using hok)

/-- Claim C4, witness: three passes with pass 2's surface acquisition lost —
pass 3 (with its queued command) is never attempted. -/
theorem submit_short_circuits_witness :
    ctx3.submit acquireFail1
      = .failed SurfaceError.Lost [passC] (renderAllTrace acquireFail1 0 [passClear]) := by
  have h := submit_short_circuits ctx3 acquireFail1 [passClear] passLoad [passC]
    SurfaceError.Lost rfl ?hok rfl
  · exact h.1
  case hok =>
    intro j hj
    have h1 : j = 0 := by
      simp only [List.length_cons, List.length_nil] at hj
      omega
    subst h1
    exact ⟨_, _, rfl⟩

/-- Claim C6 (spec-modelled `DrawCtx`): with zero begun render passes,
`current_pass_mut` fails, and a draw or setter call fails fast instead of
silently recording a command. -/
theorem draw_before_pass_fails (ctx : DrawCtx) (pl : RenderPipeline) (m : Mesh)
    (mat : Material) (h : ctx.render_passes = []) :
    ctx.current_pass = none ∧ ctx.set_pipeline pl = none ∧ ctx.draw_mesh m mat = none := by
  refine ⟨?_, ?_, ?_⟩ <;>
    simp [DrawCtx.current_pass, DrawCtx.set_pipeline, DrawCtx.draw_mesh,
      DrawCtx.draw_mesh_instanced, DrawCtx.modifyCurrentPass, h]

/-- Claim C6, witness: the concrete pass-less context rejects `set_pipeline`. -/
theorem draw_before_pass_fails_witness :
    DrawCtx.set_pipeline ctx0 pipe0 = none :=
  (draw_before_pass_fails ctx0 pipe0 mesh36 mat0 rfl).2.1

/-- Claim C7: one `draw_mesh(mesh, material)` call on a context whose current
pass is `lastPass`, for a mesh with 36 elements, appends exactly
`[SetPipeline, SetVertexBuffer(0, vb), SetIndexBuffer(ib, Uint32),
SetBindGroup(0, material), SetBindGroup(1, camera), SetBindGroup(2, light),
DrawIndexed(0..36, 0, 0..1)]` to that pass's queue, in that order, with
nothing else appended anywhere. -/
theorem draw_mesh_appends (ctx : DrawCtx) (m : Mesh) (mat : Material)
    (pre : List RenderPass) (lastPass : RenderPass)
    (hsplit : ctx.render_passes = pre ++ [lastPass]) (h36 : m.num_elements = 36) :
    ctx.draw_mesh m mat
      = some { ctx with render_passes := pre ++
          [lastPass.push_draws
            [ .SetPipeline ctx.render_pipeline,
              .SetVertexBuffer 0 m.vert_buff,
              .SetIndexBuffer m.index_buff .Uint32,
              .SetBindGroup 0 mat.bind_group none,
              .SetBindGroup 1 ctx.camera_bind_group none,
              .SetBindGroup 2 ctx.light_bind_group none,
              .DrawIndexed ⟨0, 36⟩ 0 ⟨0, 1⟩ ]] } := by
  simp [DrawCtx.draw_mesh, DrawCtx.draw_mesh_instanced, DrawCtx.modifyCurrentPass,
    hsplit, List.getLast?_concat, List.dropLast_concat, mesh.draw_mesh_instanced, h36]

/-- Claim C7, witness: the concrete one-pass context and 36-element mesh. -/
theorem draw_mesh_appends_witness :
    ctx1.draw_mesh mesh36 mat0
      = some { ctx1 with render_passes :=
          [pass1.push_draws
            [ .SetPipeline ctx1.render_pipeline,
              .SetVertexBuffer 0 mesh36.vert_buff,
              .SetIndexBuffer mesh36.index_buff .Uint32,
              .SetBindGroup 0 mat0.bind_group none,
              .SetBindGroup 1 ctx1.camera_bind_group none,
              .SetBindGroup 2 ctx1.light_bind_group none,
              .DrawIndexed ⟨0, 36⟩ 0 ⟨0, 1⟩ ]] } :=
  draw_mesh_appends ctx1 mesh36 mat0 [] pass1 rfl rfl

/-- With in-bounds material indices, the per-mesh loop expands to the
concatenation of the per-mesh groups, in mesh order. -/
theorem draw_model_meshes_eq (materials : List Material) (instances : URange)
    (cam light : BindGroup) :
    ∀ ms : List Mesh, (∀ m ∈ ms, m.material < materials.length) →
      mesh.draw_model_meshes materials instances cam light ms
        = some ((ms.map (meshGroup materials instances cam light)).flatten) := by
  intro ms
  induction ms with
  | nil => intro _; simp [mesh.draw_model_meshes]
  | cons m ms' ih =>
    intro h
    have hm := h m (List.mem_cons_self m ms')
    have hget : materials[m.material]? = some (materials.get ⟨m.material, hm⟩) :=
      List.getElem?_eq_getElem hm
    have hms' : ∀ x ∈ ms', x.material < materials.length :=
      fun x hx => h x (List.mem_cons_of_mem _ hx)
    simp [mesh.draw_model_meshes, hget, ih hms', meshGroup]

/-- Claim C8: `draw_model_instanced(model, r)` expands to exactly one command
group per mesh, emitted in mesh order with no interleaving — the expansion is
the concatenation of the per-mesh groups, there are as many groups as meshes,
and each mesh's group is its six-command sequence (vertex buffer at slot 0,
index buffer as `Uint32`, the fixed bind groups, one
`DrawIndexed(0..numElements, 0, r)`) built from its own looked-up material. -/
theorem model_expansion_groups (model : Model) (instances : URange)
    (cam light : BindGroup)
    (h : ∀ m ∈ model.meshes, m.material < model.materials.length) :
    mesh.draw_model_instanced model instances cam light
        = some ((model.meshes.map (meshGroup model.materials instances cam light)).flatten)
    ∧ (model.meshes.map (meshGroup model.materials instances cam light)).length
        = model.meshes.length
    ∧ ∀ m ∈ model.meshes, ∃ mat, model.materials[m.material]? = some mat ∧
        meshGroup model.materials instances cam light m
          = [ .SetVertexBuffer 0 m.vert_buff,
              .SetIndexBuffer m.index_buff .Uint32,
              .SetBindGroup 0 mat.bind_group none,
              .SetBindGroup 1 cam none,
              .SetBindGroup 2 light none,
              .DrawIndexed ⟨0, m.num_elements⟩ 0 instances ] := by
  refine ⟨draw_model_meshes_eq model.materials instances cam light model.meshes h,
    List.length_map _ _, ?_⟩
  intro m hm
  have hlt := h m hm
  have hget : model.materials[m.material]? = some (model.materials.get ⟨m.material, hlt⟩) :=
    List.getElem?_eq_getElem hlt
  exact ⟨model.materials.get ⟨m.material, hlt⟩, hget,
    by simp [meshGroup, hget, mesh.draw_mesh_instanced]⟩

/-- Claim C8, witness: the concrete one-mesh model with instance range 0..4. -/
theorem model_expansion_groups_witness :
    mesh.draw_model_instanced modelGood ⟨0, 4⟩ bgCam0 bgLight0
      = some ((modelGood.meshes.map
          (meshGroup modelGood.materials ⟨0, 4⟩ bgCam0 bgLight0)).flatten) :=
  (model_expansion_groups modelGood ⟨0, 4⟩ bgCam0 bgLight0 (by decide)).1

/-- Claim C9: under the data-integrity precondition that every mesh's material
index is in bounds, the per-mesh material lookup always succeeds, so the
out-of-range failure branch is unreachable; conversely, a model whose mesh
references a nonexistent material makes the expansion fail out-of-range
(modelled as `none`, the source's index panic). -/
theorem model_material_bounds :
    (∀ (model : Model) (instances : URange) (cam light : BindGroup),
        (∀ m ∈ model.meshes, m.material < model.materials.length) →
        (mesh.draw_model_instanced model instances cam light).isSome = true)
    ∧ mesh.draw_model_instanced modelBad ⟨0, 1⟩ bgCam0 bgLight0 = none := by
  constructor
  · intro model instances cam light h
    rw [mesh.draw_model_instanced,
      draw_model_meshes_eq model.materials instances cam light model.meshes h]
    rfl
  · rfl

/-- Claim C9, witness: the in-bounds model expands successfully. -/
theorem model_material_bounds_witness :
    (mesh.draw_model_instanced modelGood ⟨0, 1⟩ bgCam0 bgLight0).isSome = true :=
  model_material_bounds.1 modelGood ⟨0, 1⟩ bgCam0 bgLight0 (by decide)

/-- Claim C10: a RenderPass captures the context's surface and depth-texture
handles at creation; a subsequent positive resize replaces the window's
depth texture (rebuilt from the updated surface configuration) and writes the
new dimensions into the configuration, while the already-created pass still
holds the pre-resize handles (empty queue, same op), whose depth texture
differs from the post-resize one, and `render` would open its pass on the
captured pre-resize depth view. -/
theorem pass_snapshots_resize (w : RenderWindow) (op : RenderPassOp)
    (ns : PhysicalSize) (hw : 0 < ns.width) (hh : 0 < ns.height)
    (hdt : w.depth_texture = Texture.depth_texture w.config)
    (hne : ns.width ≠ w.config.width) :
    (w.create_draw_context.begin_render_pass op).render_passes
        = [RenderPass.new w.device_surface w.depth_texture op]
    ∧ (w.resize ns).depth_texture
        = Texture.depth_texture { w.config with width := ns.width, height := ns.height }
    ∧ (w.resize ns).config.width = ns.width ∧ (w.resize ns).config.height = ns.height
    ∧ (w.resize ns).depth_texture ≠ w.depth_texture
    ∧ ∀ frame : SurfaceTexture,
        ((RenderPass.new w.device_surface w.depth_texture op).descriptor
            frame.view).depth_stencil_attachment
          = some { view := w.depth_texture.view
                   depth_ops :=
                     some { load :=
                              match op with
                              | .Clear _ => .Clear 1
                              | .LoadFromMemory => .Load
                            store := true }
                   stencil_ops := none } := by
  have hres : w.resize ns
      = { w with
          size := ns
          config := { w.config with width := ns.width, height := ns.height }
          depth_texture :=
            Texture.depth_texture { w.config with width := ns.width, height := ns.height } } := by
    simp [RenderWindow.resize, hw, hh]
  refine ⟨rfl, ?_, ?_, ?_, ?_, fun frame => rfl⟩
  · rw [hres]
  · rw [hres]
  · rw [hres]
  · rw [hres, hdt]
    intro hcontra
    apply hne
    have := congrArg (fun t => t.view.width) hcontra
    simpa [Texture.depth_texture] using this

/-- Claim C10, witness: the concrete window resized from 800x600 to
1024x768. -/
theorem pass_snapshots_resize_witness :
    (win0.resize ⟨1024, 768⟩).depth_texture ≠ win0.depth_texture :=
  (pass_snapshots_resize win0 RenderPassOp.CLEAR_BLACK ⟨1024, 768⟩ (by decide)
    (by decide) rfl (by decide)).2.2.2.2.1

end Radium
